import Mathlib

/-!
Shallow embedding of the cycle-calculator backend (`src/main.py`).

Modelling conventions:
* Calendar dates are whole-day counts (`Int`, days since 1970-01-01 in the
  proleptic Gregorian calendar), matching the spec's day-granularity contract;
  `daysFromCivil` converts a civil `YYYY-MM-DD` date to its day count so that
  concrete examples use real calendar dates.
* Python's `%` on integers is floor-mod, which is `Int.fmod`; `datetime`
  subtraction followed by `.days` is day-count subtraction at day granularity.
* The document-store call `get_documents` is an external collaborator; its
  outcome is passed in as an `Except` value (`.error` = any raised exception).
* A store document is an association list of string fields; `dict.pop(k, None)`
  is removal of the key `k`.
* FastAPI endpoint outcomes are explicit: an HTTP 400 `HTTPException` becomes a
  `validationError`, an uncaught `ZeroDivisionError` becomes
  `zeroDivisionError`, and a `while` loop that never exits becomes `diverges`.
-/

namespace MensTration

/-- Day count of a proleptic-Gregorian civil date (days since 1970-01-01),
the standard days-from-civil computation; agrees with Python's
`datetime.toordinal` up to the fixed epoch offset. All intermediate divisions
act on non-negative values for civil-era dates. -/
def daysFromCivil (y m d : Int) : Int :=
  let yAdj := if m ≤ 2 then y - 1 else y
  let era := (if 0 ≤ yAdj then yAdj else yAdj - 399) / 400
  let yoe := yAdj - era * 400
  let mp := (m + 9).emod 12
  let doy := (153 * mp + 2) / 5 + d - 1
  let doe := yoe * 365 + yoe / 4 - yoe / 100 + doy
  era * 146097 + doe - 719468

/-- `src/main.py` line 43-45: `(target_date - cycle_start).days % cycle_length`.
Python `%` is floor-mod (`Int.fmod`); for `cycle_length = 0` Python raises
`ZeroDivisionError` instead, which `calculate_cycle` accounts for before this
function is entered. -/
def day_in_cycle (cycle_start cycle_length target_date : Int) : Int :=
  (target_date - cycle_start).fmod cycle_length

/-- `src/main.py` line 28-33: the fixed phase table
`(start_day, end_day, key, label)`, in source order. -/
def PHASES : List (Int × Int × String × String) :=
  [ (0, 5, "period", "Menstruation"),
    (6, 13, "follicular", "Follicular"),
    (14, 15, "ovulation", "Ovulation"),
    (16, 27, "luteal", "Luteal") ]

/-- The `for start, end, key, _ in PHASES` loop body of `phase_for_day`:
return the key of the first range with `start ≤ day_index ≤ end`. -/
def scanPhases : List (Int × Int × String × String) → Int → Option String
  | [], _ => none
  | (s, e, key, _) :: rest, d =>
      if s ≤ d ∧ d ≤ e then some key else scanPhases rest d

/-- `src/main.py` line 48-52: first matching table entry, else `"luteal"`. -/
def phase_for_day (day_index : Int) : String :=
  (scanPhases PHASES day_index).getD "luteal"

/-- The four phase keys, in table order. -/
def phaseKeys : List String := ["period", "follicular", "ovulation", "luteal"]

/-- `src/main.py` line 68-70: `while next_start + cycle_length <= today:
next_start += cycle_length`. The guard `0 < cycle_length` is exactly the
condition under which the source loop terminates; `calculate_cycle` flags the
complementary cases (`cycle_length = 0` never reaches the loop,
`cycle_length < 0` with `next_start + cycle_length ≤ today` loops forever). -/
def advanceStart (cycle_length today next_start : Int) : Int :=
  if _h : 0 < cycle_length ∧ next_start + cycle_length ≤ today then
    advanceStart cycle_length today (next_start + cycle_length)
  else
    next_start
termination_by (today - next_start).toNat
decreasing_by
  omega

/-- `src/main.py` line 68-71: the loop above followed by
`next_start if next_start >= today else next_start + cycle_length`. -/
def predict_next_period_start (cycle_start cycle_length today : Int) : Int :=
  let next_start := advanceStart cycle_length today cycle_start
  if today ≤ next_start then next_start else next_start + cycle_length

/-- The JSON body returned by `POST /api/cycle/calculate` (dates as day
counts). -/
structure CycleResponse where
  today : Int
  dayInCycle : Int
  phase : String
  next_period_start : Int
  cycle_length : Int
  deriving Repr, DecidableEq

/-- Possible outcomes of the `calculate_cycle` endpoint: a 200 response, the
HTTP 400 raised by `parse_date`, the uncaught `ZeroDivisionError` from `% 0`
(surfaced as a 500, not a validation error), or non-termination of the
`while` loop. -/
inductive CalcOutcome where
  | ok (r : CycleResponse)
  | validationError (detail : String)
  | zeroDivisionError
  | diverges
  deriving Repr, DecidableEq

/-- `src/main.py` line 60-79, `calculate_cycle`. The request's `cycle_start`
arrives as `Option Int`: `some` a day count when the string parses as
`YYYY-MM-DD`, `none` when `parse_date` raises its 400. Pydantic's bare
`int` field performs no range check on `cycle_length`, so every integer
reaches the arithmetic: `cycle_length = 0` raises `ZeroDivisionError` inside
`day_in_cycle`, and `cycle_length < 0` with `cycle_start + cycle_length ≤
today` makes the `while` loop run forever. -/
def calculate_cycle (cycle_start : Option Int) (cycle_length today : Int) :
    CalcOutcome :=
  match cycle_start with
  | none => .validationError "Date must be YYYY-MM-DD"
  | some start =>
      if cycle_length = 0 then
        .zeroDivisionError
      else if cycle_length < 0 ∧ start + cycle_length ≤ today then
        .diverges
      else
        let idx := day_in_cycle start cycle_length today
        .ok { today := today,
              dayInCycle := idx,
              phase := phase_for_day idx,
              next_period_start :=
                predict_next_period_start start cycle_length today,
              cycle_length := cycle_length }

/-- A stored document: an association list from field names to values
(field keys are what the claims are about, so values are strings). -/
abbrev Doc := List (String × String)

/-- `src/main.py` line 89-95: the fallback seeded ideas used when
`get_documents` raises. -/
def fallback_ideas : List Doc :=
  [ [("phase", "period"), ("title", "Comfort kit"),
     ("description", "Heat pad, chocolate, tea, low-key movie night")],
    [("phase", "period"), ("title", "Take chores off her plate"),
     ("description", "Run errands, cook, tidy up without being asked")],
    [("phase", "follicular"), ("title", "Plan a fun date"),
     ("description", "She may feel more energetic—try a new activity together")],
    [("phase", "ovulation"), ("title", "Hype her up"),
     ("description", "Compliments and quality time—she\x27ll likely feel confident")],
    [("phase", "luteal"), ("title", "Gentle support"),
     ("description", "Be patient, offer snacks, suggest cozy plans")] ]

/-- The storage-internal fields removed at `src/main.py` line 97-100. -/
def internalFields : List String := ["_id", "created_at", "updated_at"]

/-- The three `d.pop(key, None)` calls of `src/main.py` line 97-100: remove
the storage-internal fields from one document. -/
def stripInternalFields (d : Doc) : Doc :=
  d.filter (fun kv => ! internalFields.contains kv.1)

/-- `src/main.py` line 82-101, `get_ideas`: the store call's outcome is passed
in (`.ok docs` = `get_documents` returned `docs`, `.error ()` = it raised any
exception); the fallback list replaces the result on failure and internal
fields are stripped from every returned item. Returns the `items` list. -/
def get_ideas (store : Except Unit (List Doc)) : List Doc :=
  let docs :=
    match store with
    | .ok ds => ds
    | .error _ => fallback_ideas
  docs.map stripInternalFields

/-- `src/main.py` line 104-107: the response model of `GET /api/explain`. -/
structure ExplainResponse where
  phase : String
  summary : String
  tips : List String
  deriving Repr, DecidableEq

/-- `src/main.py` line 113-118: the `summaries` dict of `explain`. -/
def summaries : List (String × String) :=
  [ ("period",
     "Bleeding phase. Energy may be lower; comfort and patience go a long way."),
    ("follicular",
     "Rising hormones and energy. Great for plans, workouts, creativity."),
    ("ovulation",
     "Peak fertility. Confidence and social energy often highest."),
    ("luteal",
     "PMS window. Sensitivity may rise—opt for calm, reassurance, and help.") ]

/-- `src/main.py` line 119-140: the `tips_map` dict of `explain`. -/
def tips_map : List (String × List String) :=
  [ ("period",
     [ "Offer heat pad, cozy foods, and space if needed",
       "Keep plans flexible and low-pressure",
       "Proactively handle chores and logistics" ]),
    ("follicular",
     [ "Suggest a new activity or date",
       "Encourage goals and celebrate progress",
       "Share optimistic plans—she may be more up for it" ]),
    ("ovulation",
     [ "Give genuine compliments—she may feel her best",
       "Plan social time or a dress-up night",
       "Be playful and confident" ]),
    ("luteal",
     [ "Be patient; validate feelings without fixing right away",
       "Keep snacks and water handy; offer gentle support",
       "Avoid big conflicts—focus on comfort and reassurance" ]) ]

/-- Python's `str.lower()` as used on the `phase` query parameter: lowercase
every character (`Char.toLower` on the underlying character list, the same
mapping `String.toLower` performs). -/
def strLower (s : String) : String := ⟨s.data.map Char.toLower⟩

/-- `src/main.py` line 110-143, `explain`: lowercase the query parameter,
reject with HTTP 400 when it is not a key of `summaries`, otherwise return
the phase with its summary and tips. (`tips_map` has the same keys as
`summaries`, so the `tips_map[phase]` lookup cannot fail; `.getD []` renders
that impossible `KeyError` branch.) -/
def explain (phase : String) : Except String ExplainResponse :=
  let p := strLower phase
  match summaries.lookup p with
  | none => .error "Invalid phase. Use: period, follicular, ovulation, luteal"
  | some s => .ok { phase := p, summary := s, tips := (tips_map.lookup p).getD [] }

/-- Whether an `explain` outcome is a 200 response. -/
def isOkB (e : Except String ExplainResponse) : Bool :=
  match e with
  | .ok _ => true
  | .error _ => false

/-- The `phase` field of a successful `explain` response. -/
def phaseOf (e : Except String ExplainResponse) : Option String :=
  match e with
  | .ok r => some r.phase
  | .error _ => none

/-- The `summary` field of a successful `explain` response. -/
def summaryOf (e : Except String ExplainResponse) : Option String :=
  match e with
  | .ok r => some r.summary
  | .error _ => none

/-- The `tips` field of a successful `explain` response. -/
def tipsOf (e : Except String ExplainResponse) : Option (List String) :=
  match e with
  | .ok r => some r.tips
  | .error _ => none

/-- Whether a `calculate_cycle` outcome is the HTTP 400 raised by
`parse_date` (the endpoint's only validation error). -/
def isValidationErrorB : CalcOutcome → Bool
  | .validationError _ => true
  | _ => false

/-! ## Helper lemmas -/

/-- One unfolding of the `while next_start + cycle_length <= today` loop. -/
theorem advanceStart_unfold (L t s : Int) :
    advanceStart L t s = if 0 < L ∧ s + L ≤ t then advanceStart L t (s + L) else s := by
  rw [advanceStart, dite_eq_ite]

/-- The loop only ever adds whole multiples of `cycle_length` to
`next_start`, and on exit one more addition would pass `today`. -/
theorem advanceStart_shape (L t s : Int) (hL : 0 < L) :
    (∃ k : Nat, advanceStart L t s = s + k * L) ∧ ¬ (advanceStart L t s + L ≤ t) := by
  generalize hm : (t - s).toNat = n
  induction n using Nat.strong_induction_on generalizing s with
  | _ n ih =>
    rw [advanceStart_unfold]
    by_cases h : s + L ≤ t
    · simp only [hL, h, and_self, if_true]
      have hlt : (t - (s + L)).toNat < n := by omega
      obtain ⟨⟨k, hk⟩, hstop⟩ := ih _ hlt (s + L) rfl
      refine ⟨⟨k + 1, ?_⟩, hstop⟩
      push_cast [hk]
      ring
    · simp only [hL, h, and_false, if_false]
      exact ⟨⟨0, by ring⟩, not_false⟩

/-- When the reference date is the cycle start itself, the loop does not run. -/
theorem advanceStart_self (L s : Int) (hL : 0 < L) : advanceStart L s s = s := by
  rw [advanceStart_unfold]
  have h : ¬ (s + L ≤ s) := by omega
  simp [h]

/-- The today-equals-start branch: `next_start >= today` holds, so the start
itself is returned. -/
theorem predict_self (s L : Int) (hL : 0 < L) : predict_next_period_start s L s = s := by
  unfold predict_next_period_start
  rw [advanceStart_self L s hL]
  simp

/-- Both branches return `cycle_start` plus a non-negative multiple of
`cycle_length`. -/
theorem predict_form (s L t : Int) (hL : 0 < L) :
    ∃ k : Nat, predict_next_period_start s L t = s + k * L := by
  obtain ⟨⟨k, hk⟩, _⟩ := advanceStart_shape L t s hL
  unfold predict_next_period_start
  rw [hk]
  by_cases h : t ≤ s + k * L
  · exact ⟨k, by simp [h]⟩
  · refine ⟨k + 1, ?_⟩
    simp only [h, if_false]
    push_cast
    ring

/-- The spec's concrete test vector, on real calendar dates. -/
theorem predict_example :
    predict_next_period_start (daysFromCivil 2024 1 1) 28 (daysFromCivil 2024 1 15)
      = daysFromCivil 2024 1 29 := by
  have h1 : daysFromCivil 2024 1 1 = 19723 := by decide
  have h2 : daysFromCivil 2024 1 15 = 19737 := by decide
  have h3 : daysFromCivil 2024 1 29 = 19751 := by decide
  rw [h1, h2, h3]
  unfold predict_next_period_start
  rw [advanceStart_unfold]
  norm_num

/-- `explain` succeeds exactly when the lowercased query is one of the four
phase keys. -/
theorem explain_isOk (p : String) :
    isOkB (explain p) = phaseKeys.contains (strLower p) := by
  unfold explain isOkB
  simp only [summaries, phaseKeys, tips_map, List.lookup, List.contains, List.elem]
  cases h1 : strLower p == "period" <;> cases h2 : strLower p == "follicular" <;>
    cases h3 : strLower p == "ovulation" <;> cases h4 : strLower p == "luteal" <;>
    simp_all

/-- Any successful `explain` response carries the lowercased query as its
`phase` field. -/
theorem explain_ok_phase (p : String) (r : ExplainResponse) (h : explain p = .ok r) :
    r.phase = strLower p := by
  unfold explain at h
  simp only [] at h
  cases hq : summaries.lookup (strLower p) with
  | none => rw [hq] at h; cases h
  | some s => rw [hq] at h; cases h; rfl

/-- After the three `pop` calls no storage-internal key can be looked up. -/
theorem strip_lookup_none (d : Doc) (k : String) (hk : k ∈ internalFields) :
    (stripInternalFields d).lookup k = none := by
  unfold stripInternalFields
  induction d with
  | nil => rfl
  | cons kv rest ih =>
    obtain ⟨a, b⟩ := kv
    rw [List.filter_cons]
    by_cases hc : (! internalFields.contains a) = true
    · have hmem : a ∉ internalFields := by
        intro hin
        have hct : internalFields.contains a = true := List.elem_eq_true_of_mem hin
        rw [hct] at hc
        exact Bool.false_ne_true hc
      have hne : (k == a) = false :=
        beq_eq_false_iff_ne.mpr (fun he => hmem (he ▸ hk))
      rw [if_pos hc]
      simp only [List.lookup, hne]
      exact ih
    · rw [if_neg hc]
      exact ih

/-! ## Claims -/

/-- C1: `predict_next_period_start` follows the two-branch semantics of
`src/main.py` line 68-71 — advance `next_start` by `cycle_length` while
`next_start + cycle_length ≤ reference_date` (so on exit one more advance
would pass the reference date), then return `next_start` if
`next_start ≥ reference_date` and `next_start + cycle_length` otherwise.
Consequently the result is always `cycle_start + k * cycle_length` for some
`k ≥ 0`; when the reference date equals the cycle start the result is the
cycle start itself; and on 2024-01-01 / 28 / 2024-01-15 the result is
2024-01-29. -/
theorem predict_next_period_start_correct (s L t : Int) (hL : 0 < L) :
    (∃ k : Nat, predict_next_period_start s L t = s + k * L)
    ∧ t < advanceStart L t s + L
    ∧ predict_next_period_start s L s = s
    ∧ predict_next_period_start (daysFromCivil 2024 1 1) 28 (daysFromCivil 2024 1 15)
        = daysFromCivil 2024 1 29 := by
  refine ⟨predict_form s L t hL, ?_, predict_self s L hL, predict_example⟩
  have h := (advanceStart_shape L t s hL).2
  omega

/-- Witness for C1 at `cycle_start = 0`, `cycle_length = 28`,
`reference_date = 14`. -/
theorem predict_next_period_start_correct_witness :
    (∃ k : Nat, predict_next_period_start 0 28 14 = 0 + k * 28)
    ∧ (14 : Int) < advanceStart 28 14 0 + 28
    ∧ predict_next_period_start 0 28 0 = 0
    ∧ predict_next_period_start (daysFromCivil 2024 1 1) 28 (daysFromCivil 2024 1 15)
        = daysFromCivil 2024 1 29 :=
  predict_next_period_start_correct 0 28 14 (by decide)

/-- C2: for every cycle start, positive cycle length and reference date,
`day_in_cycle` lies in `[0, cycle_length)` (also when the reference date is
earlier than the cycle start) and differs from the whole-day difference
`reference_date − cycle_start` by an integer multiple of `cycle_length`,
i.e. it is that difference taken modulo `cycle_length`. -/
theorem day_in_cycle_mod_bounds (cs L rd : Int) (hL : 0 < L) :
    0 ≤ day_in_cycle cs L rd ∧ day_in_cycle cs L rd < L
    ∧ ∃ k : Int, rd - cs = k * L + day_in_cycle cs L rd := by
  unfold day_in_cycle
  rw [Int.fmod_eq_emod _ hL.le]
  refine ⟨Int.emod_nonneg _ (by omega), Int.emod_lt_of_pos _ hL, (rd - cs) / L, ?_⟩
  have h := Int.ediv_add_emod (rd - cs) L
  linarith [h, mul_comm ((rd - cs) / L) L]

/-- Witness for C2 with the reference date before the cycle start
(`cycle_start = 10`, `cycle_length = 28`, `reference_date = 3`). -/
theorem day_in_cycle_mod_bounds_witness :
    0 ≤ day_in_cycle 10 28 3 ∧ day_in_cycle 10 28 3 < 28
    ∧ ∃ k : Int, (3 : Int) - 10 = k * 28 + day_in_cycle 10 28 3 :=
  day_in_cycle_mod_bounds 10 28 3 (by decide)

/-- C3: on non-negative day indices the table scan returns the key of the
first (unique) matching range — 0–5 `period`, 6–13 `follicular`, 14–15
`ovulation`, 16–27 `luteal` — and every day index ≥ 28 matches no table
range yet still yields `luteal` through the deliberate fallback, not an
error. -/
theorem phase_for_day_table_scan (d : Int) (hd : 0 ≤ d) :
    (phase_for_day d =
      if d ≤ 5 then "period"
      else if d ≤ 13 then "follicular"
      else if d ≤ 15 then "ovulation"
      else "luteal")
    ∧ (28 ≤ d → scanPhases PHASES d = none ∧ phase_for_day d = "luteal") := by
  constructor
  · simp only [phase_for_day, scanPhases, PHASES, Option.getD]
    split_ifs <;> first | rfl | omega
  · intro h28
    constructor
    · simp only [scanPhases, PHASES]
      split_ifs <;> first | rfl | omega
    · simp only [phase_for_day, scanPhases, PHASES, Option.getD]
      split_ifs <;> first | rfl | omega

/-- Witness for C3 at the spec's edge case `day_index = 28`. -/
theorem phase_for_day_table_scan_witness :
    (phase_for_day 28 =
      if (28 : Int) ≤ 5 then "period"
      else if (28 : Int) ≤ 13 then "follicular"
      else if (28 : Int) ≤ 15 then "ovulation"
      else "luteal")
    ∧ scanPhases PHASES 28 = none ∧ phase_for_day 28 = "luteal" :=
  ⟨(phase_for_day_table_scan 28 (by decide)).1,
   (phase_for_day_table_scan 28 (by decide)).2 (by decide)⟩

/-- C4 (code bug): the endpoint never rejects `cycle_length ≤ 0` with a
validation error. The request model's bare `int` field performs no range
check, so `cycle_length = 0` reaches `day_in_cycle` and raises
`ZeroDivisionError` (an unhandled 500), contrary to the spec's requirement
that such input fail with a validation error; negative lengths either make
the `while` loop diverge or return a 200. -/
theorem cycle_length_zero_not_validated (start L t : Int) (_hL : L ≤ 0) :
    isValidationErrorB (calculate_cycle (some start) L t) = false
    ∧ calculate_cycle (some (daysFromCivil 2024 1 1)) 0 (daysFromCivil 2024 1 15)
        = CalcOutcome.zeroDivisionError := by
  refine ⟨?_, rfl⟩
  unfold calculate_cycle
  by_cases h0 : L = 0
  · simp [h0, isValidationErrorB]
  · by_cases hneg : L < 0 ∧ start + L ≤ t
    · simp [h0, hneg, isValidationErrorB]
    · simp [h0, hneg, isValidationErrorB]

/-- Witness for C4 at the failing request
`cycle_start = 2024-01-01, cycle_length = 0, today = 2024-01-15`. -/
theorem cycle_length_zero_not_validated_witness :
    isValidationErrorB (calculate_cycle (some 19723) 0 19737) = false
    ∧ calculate_cycle (some (daysFromCivil 2024 1 1)) 0 (daysFromCivil 2024 1 15)
        = CalcOutcome.zeroDivisionError :=
  cycle_length_zero_not_validated 19723 0 19737 (by decide)

/-- C5 counterexample: when the store call raises, the fallback list returned
by `get_ideas` has five entries, not four. -/
theorem get_ideas_fallback_count_counterexample :
    ((get_ideas (Except.error ())).length == 4) = false := by decide

/-- C5 (amended): whenever the store call raises, `get_ideas` returns the
fixed built-in fallback list of exactly five entries — two for `period` and
one each for `follicular`, `ovulation` and `luteal`, so each of the four
phase keys is covered — each entry carrying `phase`, `title` and
`description` fields and none of the storage-internal fields; the operation
is total, so no exception propagates to the caller. -/
theorem get_ideas_fallback_five_entries :
    (get_ideas (Except.error ())).length = 5
    ∧ (get_ideas (Except.error ())).map (fun d => d.lookup "phase")
        = [some "period", some "period", some "follicular", some "ovulation", some "luteal"]
    ∧ ((get_ideas (Except.error ())).all (fun d =>
          (d.lookup "title").isSome && (d.lookup "description").isSome
          && (d.lookup "_id" == none) && (d.lookup "created_at" == none)
          && (d.lookup "updated_at" == none))) = true := by
  decide

/-- C6 counterexample: `"PERIOD"` is not in the four-key set, yet
`explain "PERIOD"` succeeds — so "fails iff the given phase is not in the
set" is false as stated. -/
theorem explain_uppercase_accepted_counterexample :
    isOkB (explain "PERIOD") = true ∧ phaseKeys.contains "PERIOD" = false := by
  decide

/-- C6 (amended): `explain` fails with the 400-equivalent error exactly when
the lowercased phase is outside `{period, follicular, ovulation, luteal}`,
and for each of the four valid keys it succeeds, returning the key with its
fixed non-empty summary string and its non-empty tips list. -/
theorem explain_rejects_iff_lowercased_invalid (p : String) :
    isOkB (explain p) = phaseKeys.contains (strLower p)
    ∧ (phaseKeys.all (fun k =>
        isOkB (explain k) && (phaseOf (explain k) == some k)
        && (summaryOf (explain k)).isSome && (summaryOf (explain k) != some "")
        && (tipsOf (explain k)).isSome && (tipsOf (explain k) != some []))) = true :=
  ⟨explain_isOk p, by decide⟩

/-- C7: every item returned by `get_ideas` — for any store outcome, success
or failure — contains none of `_id`, `created_at`, `updated_at`. -/
theorem get_ideas_no_internal_fields (store : Except Unit (List Doc)) (d : Doc)
    (hd : d ∈ get_ideas store) (k : String) (hk : k ∈ internalFields) :
    d.lookup k = none := by
  unfold get_ideas at hd
  obtain ⟨d0, _, rfl⟩ := List.mem_map.mp hd
  exact strip_lookup_none d0 k hk

/-- Witness for C7: a stored document carrying `_id` comes back without it. -/
theorem get_ideas_no_internal_fields_witness :
    ([("phase", "period")] : Doc).lookup "_id" = none :=
  get_ideas_no_internal_fields (Except.ok [[("_id", "x"), ("phase", "period")]])
    [("phase", "period")] (by decide) "_id" (by decide)

/-- C8: `day_in_cycle` is periodic with period `cycle_length`; in particular
for every start date `day_in_cycle start 28 start = 0` and
`day_in_cycle start 28 (start + 28) = 0`. -/
theorem day_in_cycle_periodicity (s r L : Int) (hL : 0 < L) :
    day_in_cycle s 28 s = 0 ∧ day_in_cycle s 28 (s + 28) = 0
    ∧ day_in_cycle s L (r + L) = day_in_cycle s L r := by
  refine ⟨by simp [day_in_cycle], by norm_num [day_in_cycle], ?_⟩
  unfold day_in_cycle
  rw [Int.fmod_eq_emod _ hL.le, Int.fmod_eq_emod _ hL.le]
  have he : r + L - s = (r - s) + L * 1 := by ring
  rw [he, Int.add_mul_emod_self_left]

/-- Witness for C8 at `start = 100`, `reference = 37`, `cycle_length = 5`. -/
theorem day_in_cycle_periodicity_witness :
    day_in_cycle 100 28 100 = 0 ∧ day_in_cycle 100 28 (100 + 28) = 0
    ∧ day_in_cycle 100 5 (37 + 5) = day_in_cycle 100 5 37 :=
  day_in_cycle_periodicity 100 37 5 (by decide)

/-- C9: `phase_for_day` is total over all integers — it always returns one
of the four phase keys, and every negative day index (matched by no table
range) falls through to the `"luteal"` fallback. -/
theorem phase_for_day_total_fallback (d : Int) :
    (d < 0 → phase_for_day d = "luteal")
    ∧ phaseKeys.contains (phase_for_day d) = true := by
  constructor
  · intro h
    simp only [phase_for_day, scanPhases, PHASES, Option.getD]
    split_ifs <;> first | rfl | omega
  · simp only [phase_for_day, scanPhases, PHASES, Option.getD]
    split_ifs <;> decide

/-- Witness for C9 at `day_index = -1`. -/
theorem phase_for_day_total_fallback_witness :
    phase_for_day (-1) = "luteal"
    ∧ phaseKeys.contains (phase_for_day (-1)) = true :=
  ⟨(phase_for_day_total_fallback (-1)).1 (by decide),
   (phase_for_day_total_fallback (-1)).2⟩

/-- C10: `explain` lowercases its argument before validating, so a request
succeeds exactly when the lowercase form is one of the four keys, every
successful response carries the lowercase key as its `phase` field, and the
case variants `"PERIOD"` and `"Luteal"` are accepted. -/
theorem explain_lowercases_phase (p : String) :
    isOkB (explain p) = phaseKeys.contains (strLower p)
    ∧ (∀ r : ExplainResponse, explain p = Except.ok r → r.phase = strLower p)
    ∧ isOkB (explain "PERIOD") = true ∧ phaseOf (explain "PERIOD") = some "period"
    ∧ isOkB (explain "Luteal") = true ∧ phaseOf (explain "Luteal") = some "luteal" :=
  ⟨explain_isOk p, fun r h => explain_ok_phase p r h,
   by decide, by decide, by decide, by decide⟩

/-- Witness for C10 at the concrete request `phase = "PERIOD"`. -/
theorem explain_lowercases_phase_witness :
    (ExplainResponse.mk "period"
      "Bleeding phase. Energy may be lower; comfort and patience go a long way."
      ["Offer heat pad, cozy foods, and space if needed",
       "Keep plans flexible and low-pressure",
       "Proactively handle chores and logistics"]).phase = strLower "PERIOD" :=
  (explain_lowercases_phase "PERIOD").2.1
    (ExplainResponse.mk "period"
      "Bleeding phase. Energy may be lower; comfort and patience go a long way."
      ["Offer heat pad, cozy foods, and space if needed",
       "Keep plans flexible and low-pressure",
       "Proactively handle chores and logistics"])
    (by rfl)

end MensTration
